import Mathlib

/-!
Verification development for the Dropcountr Python client
(`dropcountr_client.py`): a session-authenticated HTTP API client with
URI-template-driven time-series retrieval.

The embedding is shallow: the mutable `DropcountrClient` object becomes a
record threaded explicitly through each operation; HTTP responses are
values supplied to the operation (the network is an oracle); fallible
paths return `Except`.  Header maps are association lists with names
normalized to lowercase, mirroring httpx's case-insensitive `Headers`.
-/

/-- A JSON value, as produced by `response.json()`.  Numbers are modelled
as integers (no float arithmetic is performed by the client).  Object
field lists come from a parsed Python `dict`, so keys are distinct and
first-match lookup agrees with `dict` access. -/
inductive Json where
  | null : Json
  | bool (b : Bool) : Json
  | num (n : Int) : Json
  | str (s : String) : Json
  | arr (xs : List Json) : Json
  | obj (fields : List (String × Json)) : Json

/-- Header map: association list of lowercase header names to values. -/
abbrev Headers := List (String × String)

/-- Set one header, replacing an existing entry for the same name
(httpx `Headers.__setitem__`); the maps built here are duplicate-free, so
replacing the first occurrence coincides with httpx's semantics. -/
def setHeader (hs : Headers) (k v : String) : Headers :=
  match hs with
  | [] => [(k, v)]
  | p :: rest => if p.1 = k then (k, v) :: rest else p :: setHeader rest k v

/-- httpx `client.headers.update(d)`: set each entry of `d` in turn. -/
def headersUpdate (hs : Headers) (d : Headers) : Headers :=
  d.foldl (fun acc kv => setHeader acc kv.1 kv.2) hs

/-- Default headers httpx installs on a freshly constructed `httpx.Client`
(names lowercased; the httpx version suffix of the user-agent string is
elided — no claim depends on it). -/
def httpxDefaultHeaders : Headers :=
  [("accept", "*/*"),
   ("accept-encoding", "gzip, deflate"),
   ("connection", "keep-alive"),
   ("user-agent", "python-httpx")]

/-- The state of an `httpx.Client` transport: its stored (default) header
map and its cookie jar.  Redirect-following is a fixed configuration flag
with no further observable effect in the model. -/
structure HttpxClient where
  headers : Headers
  cookies : List (String × String)
deriving DecidableEq

/-- `httpx.Client(follow_redirects=True, cookies=httpx.Cookies())`:
a fresh transport with the httpx default headers and an empty jar. -/
def freshHttpxClient : HttpxClient :=
  { headers := httpxDefaultHeaders, cookies := [] }

/-- An HTTP response as seen by the client: status code and body.
`body = none` models a body that is not valid JSON. -/
structure Response where
  status : Nat
  body : Option Json

/-- Observable lifecycle events of a client operation. -/
inductive Event where
  | createSession : Event
  | closeCalled : Event
  | sessionClosed : Event
deriving DecidableEq

/-- An outgoing HTTP request: method, URL, the session-level headers that
accompany it, and any form data.  Transport-generated entries
(content-length, host, body-derived content-type) are below the model's
level of abstraction. -/
structure Request where
  method : String
  url : String
  headers : Headers
  form : List (String × String)

/-- Errors raised on the `get()` path. -/
inductive GetError where
  | httpStatus (code : Nat) : GetError
  | jsonDecode : GetError
  | missingData : GetError
deriving DecidableEq

/-- The `DropcountrClient` object: credentials stored verbatim at
construction and the lazily created transport (`self._http_client`,
`None` until first use). -/
structure DropcountrClient where
  email : String
  password : String
  http_client : Option HttpxClient

/-- `DropcountrClient(email, password)`: store credentials, no transport. -/
def DropcountrClient.init (email password : String) : DropcountrClient :=
  { email := email, password := password, http_client := none }

/-- `DropcountrClient.LOGIN_URL`. -/
def DropcountrClient.LOGIN_URL : String := "https://dropcountr.com/login"

/-- `DropcountrClient.USER_DISCOVERY_API`. -/
def DropcountrClient.USER_DISCOVERY_API : String := "https://dropcountr.com/api/me"

/-- `DropcountrClient.LOGOUT_URL`. -/
def DropcountrClient.LOGOUT_URL : String := "https://dropcountr.com/api/logout"

/-- `close()`: if a transport is present, close it and clear the holder;
otherwise the guard `if self._http_client:` falls through and nothing
happens.  The `closeCalled` event records the call itself, `sessionClosed`
the actual transport teardown. -/
def DropcountrClient.close (c : DropcountrClient) : DropcountrClient × List Event :=
  match c.http_client with
  | some _ => ({ c with http_client := none }, [Event.closeCalled, Event.sessionClosed])
  | none => (c, [Event.closeCalled])

/-- The `http` property: lazily create the transport on first access,
thereafter return the stored one. -/
def DropcountrClient.http (c : DropcountrClient) : DropcountrClient × HttpxClient × List Event :=
  match c.http_client with
  | some s => (c, s, [])
  | none =>
    ({ c with http_client := some freshHttpxClient }, freshHttpxClient, [Event.createSession])

/-- The `headers` property: the fixed API request headers.  Names are
lowercased here because httpx stores header names case-insensitively. -/
def DropcountrClient.headers : Headers :=
  [("user-agent", "Dropcountr Python Client"),
   ("content-type", "application/json"),
   ("accept", "application/vnd.dropcountr.api+json;version=2")]

/-- The `api` property: take the shared transport and mutate its stored
header map with `client.headers.update(self.headers)`; the mutation is
visible in the client state afterwards. -/
def DropcountrClient.api (c : DropcountrClient) : DropcountrClient × HttpxClient × List Event :=
  let r := DropcountrClient.http c
  let s : HttpxClient := { r.2.1 with headers := headersUpdate r.2.1.headers DropcountrClient.headers }
  ({ r.1 with http_client := some s }, s, r.2.2)

/-- `login()`: `self.http.post(LOGIN_URL, data=...)` — a form POST through
the bare `http` transport (not `api`), carrying whatever headers the
transport currently stores. -/
def DropcountrClient.login (c : DropcountrClient) : DropcountrClient × Request × List Event :=
  let r := DropcountrClient.http c
  (r.1,
   { method := "POST", url := DropcountrClient.LOGIN_URL,
     headers := r.2.1.headers,
     form := [("email", c.email), ("password", c.password)] },
   r.2.2)

/-- Field lookup in a parsed JSON object. -/
def Json.lookupField (fields : List (String × Json)) (k : String) : Option Json :=
  match fields with
  | [] => none
  | (k', v) :: rest => if k' = k then some v else Json.lookupField rest k

/-- `parsed["data"]`: the value under key `data` when `parsed` is an
object containing it; `none` models the `KeyError` on a missing key and
the `TypeError` on indexing a non-object. -/
def Json.dataField : Json → Option Json
  | Json.obj fields => Json.lookupField fields "data"
  | _ => none

/-- `response.raise_for_status()`: httpx raises `HTTPStatusError`, which
carries the response (and hence the status code), exactly when the status
is not a 2xx success. -/
def Response.raise_for_status (resp : Response) : Except GetError Unit :=
  if 200 ≤ resp.status ∧ resp.status < 300 then Except.ok ()
  else Except.error (GetError.httpStatus resp.status)

/-- `response.json()["data"]`: a `JSONDecodeError` on an unparseable
body, a `KeyError`/`TypeError` on a parsed body without a `data` field,
otherwise the inner value. -/
def Response.jsonData (resp : Response) : Except GetError Json :=
  match resp.body with
  | none => Except.error GetError.jsonDecode
  | some j =>
    match Json.dataField j with
    | some v => Except.ok v
    | none => Except.error GetError.missingData

/-- The body of `get(url)` after the request is issued:
`raise_for_status` first, then unwrap the envelope. -/
def Response.unwrap (resp : Response) : Except GetError Json :=
  match Response.raise_for_status resp with
  | Except.error e => Except.error e
  | Except.ok _ => Response.jsonData resp

/-- `get(url)`: issue a GET through the `api` transport (whose stored
headers were just updated with the fixed API headers), then check status
and unwrap the `data` envelope of the supplied response. -/
def DropcountrClient.get (c : DropcountrClient) (url : String) (resp : Response) :
    DropcountrClient × Request × Except GetError Json :=
  let r := DropcountrClient.api c
  (r.1,
   { method := "GET", url := url, headers := r.2.1.headers, form := [] },
   Response.unwrap resp)

/-- `_format_time_range(during)`: if the string already contains `/` it
is returned as-is; the fall-through also returns the input unchanged. -/
def DropcountrClient._format_time_range (during : String) : String :=
  if during.contains (Char.ofNat 47) then during
  else during

/-- Is the character left untouched by RFC 6570 simple string expansion
(urllib `quote` with an empty safe set): ASCII letters, digits, and
`-`, `.`, `_`, `~`. -/
def isUnreservedChar (c : Char) : Bool :=
  c.isAlpha || c.isDigit ||
  c = Char.ofNat 45 || c = Char.ofNat 46 || c = Char.ofNat 95 || c = Char.ofNat 126

/-- Uppercase hexadecimal digit for `n < 16`. -/
def hexDigitChar (n : Nat) : Char :=
  if n < 10 then Char.ofNat (48 + n) else Char.ofNat (55 + n)

/-- The UTF-8 bytes of a character, as naturals below 256. -/
def utf8Bytes (c : Char) : List Nat :=
  let n := c.toNat
  if n < 128 then [n]
  else if n < 2048 then [192 + n / 64, 128 + n % 64]
  else if n < 65536 then [224 + n / 4096, 128 + (n / 64) % 64, 128 + n % 64]
  else [240 + n / 262144, 128 + (n / 4096) % 64, 128 + (n / 64) % 64, 128 + n % 64]

/-- Percent-encode one byte as `%XX` with uppercase hex. -/
def pctByte (b : Nat) : String :=
  String.mk [Char.ofNat 37, hexDigitChar (b / 16 % 16), hexDigitChar (b % 16)]

/-- Percent-encode a string value for simple expansion: unreserved
characters pass through, everything else is encoded byte-wise. -/
def pctEncode (v : String) : String :=
  v.data.foldl
    (fun acc c =>
      if isUnreservedChar c then acc.push c
      else acc ++ String.join ((utf8Bytes c).map pctByte))
    ""

/-- RFC 6570 simple string expansion over the template's characters.
The second argument is `none` while copying literal text and
`some acc` (accumulated name, reversed) inside a placeholder expression.
A bound variable expands to its percent-encoded value; an unbound one to
the empty string (uritemplate drops undefined simple variables).  This
covers the level-1 fragment the client exercises: the templates hold
simple `(period)` and `(during)` expressions, no operators. -/
def expandAux (vars : List (String × String)) : List Char → Option (List Char) → String
  | [], _ => ""
  | c :: rest, none =>
    if c = Char.ofNat 123 then expandAux vars rest (some [])
    else String.singleton c ++ expandAux vars rest none
  | c :: rest, some acc =>
    if c = Char.ofNat 125 then
      (match vars.lookup (String.mk acc.reverse) with
       | some v => pctEncode v
       | none => "") ++ expandAux vars rest none
    else expandAux vars rest (some (c :: acc))

/-- `URITemplate(tmpl).expand(...)` for the simple-expansion fragment. -/
def expandTemplate (tmpl : String) (vars : List (String × String)) : String :=
  expandAux vars tmpl.data none

/-- `_series(templated_url, period, during)`: expand the template with
`period` and the formatted `during`, then `get` the concrete URL. -/
def DropcountrClient._series (c : DropcountrClient) (templated_url period during : String)
    (resp : Response) : DropcountrClient × Request × Except GetError Json :=
  DropcountrClient.get c
    (expandTemplate templated_url
      [("period", period), ("during", DropcountrClient._format_time_range during)])
    resp

/-- `usage(templated_url, period, during)`: delegates to `_series`. -/
def DropcountrClient.usage (c : DropcountrClient) (templated_url period during : String)
    (resp : Response) : DropcountrClient × Request × Except GetError Json :=
  DropcountrClient._series c templated_url period during resp

/-- `cost(templated_url, period, during)`: delegates to `_series`. -/
def DropcountrClient.cost (c : DropcountrClient) (templated_url period during : String)
    (resp : Response) : DropcountrClient × Request × Except GetError Json :=
  DropcountrClient._series c templated_url period during resp

/-- `goal(templated_url, period, during)`: delegates to `_series`. -/
def DropcountrClient.goal (c : DropcountrClient) (templated_url period during : String)
    (resp : Response) : DropcountrClient × Request × Except GetError Json :=
  DropcountrClient._series c templated_url period during resp

/-- `with DropcountrClient(...) as client: body` — `__enter__` returns
the client itself; `__exit__` calls `close()` and returns `None`, so an
in-block error propagates.  `body` yields the updated client, its trace
and its outcome (`Except.error` models the block raising). -/
def DropcountrClient.withClient {α : Type} (c : DropcountrClient)
    (body : DropcountrClient → DropcountrClient × List Event × Except String α) :
    DropcountrClient × List Event × Except String α :=
  let r := body c
  let cl := DropcountrClient.close r.1
  (cl.1, r.2.1 ++ cl.2, r.2.2)

/-- Number of `close()` invocations recorded in a trace. -/
def countCloseCalled (tr : List Event) : Nat :=
  (tr.filter (fun e => e = Event.closeCalled)).length

/-- The stored header map of the client's live session, if any. -/
def storedSessionHeaders (c : DropcountrClient) : Option Headers :=
  c.http_client.map HttpxClient.headers

/-! Helper lemmas about header maps. -/

/-- After setting a header, looking it up yields the new value. -/
theorem lookup_setHeader_self (hs : Headers) (k v : String) :
    (setHeader hs k v).lookup k = some v := by
  induction hs with
  | nil => simp [setHeader, List.lookup]
  | cons p rest ih =>
    by_cases h : p.1 = k
    · simp [setHeader, h, List.lookup]
    · simp only [setHeader, if_neg h, List.lookup]
      have : (k == p.1) = false := by
        simp [beq_iff_eq]; exact fun hk => h hk.symm
      rw [this]
      exact ih

/-- Setting one header leaves lookups of other names unchanged. -/
theorem lookup_setHeader_ne (hs : Headers) (k v k' : String) (h : k' ≠ k) :
    (setHeader hs k v).lookup k' = hs.lookup k' := by
  induction hs with
  | nil =>
    have : (k' == k) = false := by simp [beq_iff_eq]; exact h
    simp [setHeader, List.lookup, this]
  | cons p rest ih =>
    by_cases hp : p.1 = k
    · have h1 : (k' == k) = false := by simp [beq_iff_eq]; exact h
      have h2 : (k' == p.1) = false := by simp [beq_iff_eq]; intro he; exact h (he.trans hp)
      simp [setHeader, hp, List.lookup, h1, h2]
    · simp only [setHeader, if_neg hp, List.lookup]
      cases hkp : (k' == p.1) with
      | true => rfl
      | false => exact ih

/-- Updating any header map with the fixed API headers makes each of the
three API entries visible under its name. -/
theorem lookup_headersUpdate_api (hs : Headers) :
    (headersUpdate hs DropcountrClient.headers).lookup "user-agent"
        = some "Dropcountr Python Client"
    ∧ (headersUpdate hs DropcountrClient.headers).lookup "content-type"
        = some "application/json"
    ∧ (headersUpdate hs DropcountrClient.headers).lookup "accept"
        = some "application/vnd.dropcountr.api+json;version=2" := by
  have hu : headersUpdate hs DropcountrClient.headers
      = setHeader (setHeader (setHeader hs "user-agent" "Dropcountr Python Client")
          "content-type" "application/json")
          "accept" "application/vnd.dropcountr.api+json;version=2" := rfl
  rw [hu]
  refine ⟨?_, ?_, ?_⟩
  · rw [lookup_setHeader_ne _ _ _ _ (by decide), lookup_setHeader_ne _ _ _ _ (by decide),
      lookup_setHeader_self]
  · rw [lookup_setHeader_ne _ _ _ _ (by decide), lookup_setHeader_self]
  · rw [lookup_setHeader_self]

/-- Splitting a close-call count over a concatenated trace. -/
theorem countCloseCalled_append (a b : List Event) :
    countCloseCalled (a ++ b) = countCloseCalled a + countCloseCalled b := by
  simp [countCloseCalled, List.filter_append]

/-- Each call to `close` records exactly one close invocation. -/
theorem countCloseCalled_close (c : DropcountrClient) :
    countCloseCalled (DropcountrClient.close c).2 = 1 := by
  cases h : c.http_client <;> simp [DropcountrClient.close, h, countCloseCalled]

/-! The claims. -/

/-- C1: on a 2xx response whose JSON body contains a `data` key, `get`
returns exactly the value stored under `data`, never the envelope. -/
theorem get_returns_data_value (c : DropcountrClient) (url : String) (resp : Response)
    (j v : Json) (h2 : 200 ≤ resp.status ∧ resp.status < 300)
    (hb : resp.body = some j) (hd : Json.dataField j = some v) :
    (DropcountrClient.get c url resp).2.2 = Except.ok v := by
  simp [DropcountrClient.get, DropcountrClient.api, Response.unwrap,
    Response.raise_for_status, Response.jsonData, if_pos h2, hb, hd]

/-- C1 witness: concrete 2xx envelope `(data: 1)` unwraps to `1`. -/
theorem get_returns_data_value_witness :
    ((200 ≤ 200 ∧ 200 < 300)
      ∧ (Response.mk 200 (some (Json.obj [("data", Json.num 1)]))).body
          = some (Json.obj [("data", Json.num 1)])
      ∧ Json.dataField (Json.obj [("data", Json.num 1)]) = some (Json.num 1))
    ∧ (DropcountrClient.get (DropcountrClient.init "e" "p") "https://dropcountr.com/api/me"
        (Response.mk 200 (some (Json.obj [("data", Json.num 1)])))).2.2
        = Except.ok (Json.num 1) :=
  ⟨⟨⟨by decide, by decide⟩, rfl, rfl⟩,
   get_returns_data_value (DropcountrClient.init "e" "p") "https://dropcountr.com/api/me"
     (Response.mk 200 (some (Json.obj [("data", Json.num 1)])))
     (Json.obj [("data", Json.num 1)]) (Json.num 1)
     ⟨by decide, by decide⟩ rfl rfl⟩

/-- C2: on any non-2xx response, `get` fails with an HTTP error carrying
the original status code and returns no value; the same error shape is
used for 4xx and 5xx alike, and only one request is issued. -/
theorem get_errors_on_non_success (c : DropcountrClient) (url : String) (resp : Response)
    (h : ¬ (200 ≤ resp.status ∧ resp.status < 300)) :
    (DropcountrClient.get c url resp).2.2
      = Except.error (GetError.httpStatus resp.status) := by
  simp [DropcountrClient.get, DropcountrClient.api, Response.unwrap,
    Response.raise_for_status, if_neg h]

/-- C2 witness: a 404 response produces `httpStatus 404`. -/
theorem get_errors_on_non_success_witness :
    (¬ (200 ≤ 404 ∧ 404 < 300))
    ∧ (DropcountrClient.get (DropcountrClient.init "e" "p") "https://dropcountr.com/api/me"
        (Response.mk 404 none)).2.2 = Except.error (GetError.httpStatus 404) :=
  ⟨by decide,
   get_errors_on_non_success (DropcountrClient.init "e" "p") "https://dropcountr.com/api/me"
     (Response.mk 404 none) (by decide)⟩

/-- C3: on a 2xx response whose body is not valid JSON or lacks a `data`
key, `get` fails with a decode or structural error rather than returning
a value. -/
theorem get_errors_on_bad_body (c : DropcountrClient) (url : String) (resp : Response)
    (h2 : 200 ≤ resp.status ∧ resp.status < 300)
    (hbad : resp.body.bind Json.dataField = none) :
    (DropcountrClient.get c url resp).2.2 = Except.error GetError.jsonDecode
    ∨ (DropcountrClient.get c url resp).2.2 = Except.error GetError.missingData := by
  cases hb : resp.body with
  | none =>
    left
    simp [DropcountrClient.get, DropcountrClient.api, Response.unwrap,
      Response.raise_for_status, Response.jsonData, if_pos h2, hb]
  | some j =>
    right
    have hd : Json.dataField j = none := by
      rw [hb] at hbad
      simpa using hbad
    simp [DropcountrClient.get, DropcountrClient.api, Response.unwrap,
      Response.raise_for_status, Response.jsonData, if_pos h2, hb, hd]

/-- C3 witness: a 200 response with an unparseable body yields the decode
error. -/
theorem get_errors_on_bad_body_witness :
    ((200 ≤ 200 ∧ 200 < 300) ∧ (Response.mk 200 none).body.bind Json.dataField = none)
    ∧ ((DropcountrClient.get (DropcountrClient.init "e" "p") "https://dropcountr.com/api/me"
          (Response.mk 200 none)).2.2 = Except.error GetError.jsonDecode
        ∨ (DropcountrClient.get (DropcountrClient.init "e" "p") "https://dropcountr.com/api/me"
          (Response.mk 200 none)).2.2 = Except.error GetError.missingData) :=
  ⟨⟨⟨by decide, by decide⟩, rfl⟩,
   get_errors_on_bad_body (DropcountrClient.init "e" "p") "https://dropcountr.com/api/me"
     (Response.mk 200 none) ⟨by decide, by decide⟩ rfl⟩

/-- C4 counterexample: after a single `get`-path call on a fresh client,
the fixed versioned Accept header sits in the session's *stored* header
map — `client.headers.update(self.headers)` persists the API headers onto
the session object, refuting "not stored on the session". -/
theorem api_headers_stored_on_session :
    storedSessionHeaders
        (DropcountrClient.get (DropcountrClient.init "e" "p")
          "https://dropcountr.com/api/me"
          (Response.mk 200 (some (Json.obj [("data", Json.null)])))).1
      = some (headersUpdate httpxDefaultHeaders DropcountrClient.headers)
    ∧ (headersUpdate httpxDefaultHeaders DropcountrClient.headers).lookup "accept"
      = some "application/vnd.dropcountr.api+json;version=2" :=
  ⟨rfl, rfl⟩

/-- C4 (amended): the fixed API headers are re-applied on every
`get`-path request — the issued request carries all three — and the
update is persisted onto the session's stored header map; the session
holds at most one live transport per client instance (an existing
transport is reused, never replaced, by the lazy accessor). -/
theorem api_headers_per_request (c : DropcountrClient) (url : String) (resp : Response)
    (s' : HttpxClient) :
    ((DropcountrClient.get c url resp).2.1.headers.lookup "user-agent"
        = some "Dropcountr Python Client"
      ∧ (DropcountrClient.get c url resp).2.1.headers.lookup "content-type"
        = some "application/json"
      ∧ (DropcountrClient.get c url resp).2.1.headers.lookup "accept"
        = some "application/vnd.dropcountr.api+json;version=2")
    ∧ storedSessionHeaders (DropcountrClient.get c url resp).1
        = some (DropcountrClient.get c url resp).2.1.headers
    ∧ DropcountrClient.http { c with http_client := some s' }
        = ({ c with http_client := some s' }, s', []) := by
  refine ⟨?_, ?_, rfl⟩
  · cases hc : c.http_client with
    | none =>
      simpa [DropcountrClient.get, DropcountrClient.api, DropcountrClient.http, hc]
        using lookup_headersUpdate_api httpxDefaultHeaders
    | some s =>
      simpa [DropcountrClient.get, DropcountrClient.api, DropcountrClient.http, hc]
        using lookup_headersUpdate_api s.headers
  · cases hc : c.http_client <;>
      simp [DropcountrClient.get, DropcountrClient.api, DropcountrClient.http, hc,
        storedSessionHeaders]

/-- C5: the series operation gets exactly the URL obtained by RFC 6570
simple expansion of the template, substituting `period` and the
time-range-formatted `during`; concretely, `https://x/(period)/(during)`
with `period = day` and `during = 2023-01-01/2023-01-02` expands with the
interval's `/` percent-encoded. -/
theorem series_expands_template (c : DropcountrClient)
    (templated_url period during : String) (resp : Response) :
    (DropcountrClient._series c templated_url period during resp).2.1.url
      = expandTemplate templated_url
          [("period", period), ("during", DropcountrClient._format_time_range during)]
    ∧ DropcountrClient._series c templated_url period during resp
      = DropcountrClient.get c
          (expandTemplate templated_url
            [("period", period), ("during", DropcountrClient._format_time_range during)])
          resp
    ∧ expandTemplate "https://x/{period}/{during}"
        [("period", "day"), ("during", "2023-01-01/2023-01-02")]
      = "https://x/day/2023-01-01%2F2023-01-02" :=
  ⟨rfl, rfl, rfl⟩

/-- C6: the time-range formatter is the identity on every string — with
or without a `/` — and is therefore idempotent. -/
theorem format_time_range_identity (s : String) :
    DropcountrClient._format_time_range s = s
    ∧ DropcountrClient._format_time_range (DropcountrClient._format_time_range s)
      = DropcountrClient._format_time_range s := by
  constructor <;> simp [DropcountrClient._format_time_range]

/-- C7: `usage`, `cost` and `goal` all delegate to the single `_series`
operation with the same arguments, so the three are extensionally equal. -/
theorem usage_cost_goal_eq_series (c : DropcountrClient)
    (templated_url period during : String) (resp : Response) :
    DropcountrClient.usage c templated_url period during resp
      = DropcountrClient._series c templated_url period during resp
    ∧ DropcountrClient.cost c templated_url period during resp
      = DropcountrClient._series c templated_url period during resp
    ∧ DropcountrClient.goal c templated_url period during resp
      = DropcountrClient._series c templated_url period during resp
    ∧ DropcountrClient.usage c templated_url period during resp
      = DropcountrClient.goal c templated_url period during resp :=
  ⟨rfl, rfl, rfl, rfl⟩

/-- C8: `close` is idempotent — a second call right after a first is a
no-op that performs no transport teardown and leaves the holder empty —
and the next transport access after closing creates a fresh session
rather than reusing the released one. -/
theorem close_idempotent (c : DropcountrClient) :
    DropcountrClient.close (DropcountrClient.close c).1
      = ((DropcountrClient.close c).1, [Event.closeCalled])
    ∧ (DropcountrClient.close c).1.http_client = none
    ∧ DropcountrClient.http (DropcountrClient.close c).1
      = ({ (DropcountrClient.close c).1 with http_client := some freshHttpxClient },
          freshHttpxClient, [Event.createSession]) := by
  cases hc : c.http_client <;>
    simp [DropcountrClient.close, DropcountrClient.http, hc]

/-- C9: a scoped (`with`) block calls `close` exactly once on exit — the
trace gains exactly one close call beyond whatever the body did — whether
the body finishes normally or raises, and the body's outcome (value or
error) propagates unchanged. -/
theorem with_block_closes_once {α : Type} (c : DropcountrClient)
    (body : DropcountrClient → DropcountrClient × List Event × Except String α) :
    countCloseCalled (DropcountrClient.withClient c body).2.1
      = countCloseCalled (body c).2.1 + 1
    ∧ (DropcountrClient.withClient c body).2.2 = (body c).2.2 := by
  refine ⟨?_, rfl⟩
  show countCloseCalled ((body c).2.1 ++ (DropcountrClient.close (body c).1).2) = _
  rw [countCloseCalled_append, countCloseCalled_close]

/-- C10: on a freshly constructed client, `login` posts through the bare
session: its request carries only the httpx default headers, none of the
fixed API header values; after a `get`-path call has persisted the API
headers onto the session, a subsequent `login` request does carry them. -/
theorem login_bare_then_inherits_api_headers (e p url : String) (resp : Response) :
    (DropcountrClient.login (DropcountrClient.init e p)).2.1.headers = httpxDefaultHeaders
    ∧ (DropcountrClient.login (DropcountrClient.init e p)).2.1.headers.lookup "content-type"
      = none
    ∧ (DropcountrClient.login (DropcountrClient.init e p)).2.1.headers.lookup "accept"
      ≠ some "application/vnd.dropcountr.api+json;version=2"
    ∧ (DropcountrClient.login (DropcountrClient.init e p)).2.1.headers.lookup "user-agent"
      ≠ some "Dropcountr Python Client"
    ∧ (DropcountrClient.login
        (DropcountrClient.get (DropcountrClient.login (DropcountrClient.init e p)).1
          url resp).1).2.1.headers.lookup "user-agent"
      = some "Dropcountr Python Client"
    ∧ (DropcountrClient.login
        (DropcountrClient.get (DropcountrClient.login (DropcountrClient.init e p)).1
          url resp).1).2.1.headers.lookup "content-type"
      = some "application/json"
    ∧ (DropcountrClient.login
        (DropcountrClient.get (DropcountrClient.login (DropcountrClient.init e p)).1
          url resp).1).2.1.headers.lookup "accept"
      = some "application/vnd.dropcountr.api+json;version=2" := by
  refine ⟨rfl, rfl, ?_, ?_, rfl, rfl, rfl⟩
  · show List.lookup "accept" httpxDefaultHeaders
      ≠ some "application/vnd.dropcountr.api+json;version=2"
    decide
  · show List.lookup "user-agent" httpxDefaultHeaders ≠ some "Dropcountr Python Client"
    decide
